import Mathlib

/-!
Shallow embedding of the `check connection` core of the `aha` repository
(`cmd/check/connection.go`): the probe data model, the resource factory
`createResource`, the per-kind `CheckConnection` / `GetDescription`
operations, and the orchestrator loop of `newConnection` that turns a
sequence of named connection configs into report rows.

External effects (HTTP transport, MySQL driver, Redis client, Pub/Sub
client) are modelled as an oracle record `NetEnv`; the Go standard
library's `time.ParseDuration` is embedded as `parseDuration` with exact
Nat arithmetic (`% 2 ^ 64` where Go's uint64 addition can wrap; the
fractional contribution `uint64(float64(f) * (float64(unit)/scale))` is
modelled as the exact floor `f * unit / scale`).

Go's iteration over the name-keyed connections map is modelled as a list
of (name, config) pairs in some iteration order, matching the spec's
"ordering unspecified" stance. The `go-pretty` colour layer is modelled
by `colorize` with an `enabled` flag, mirroring the library's behaviour
of wrapping the text in an ANSI escape sequence exactly when ANSI colours
are enabled (terminal output) and returning the text unchanged otherwise.
-/

/-- Config for one named connection entry (Go struct `ConnectionConfig`,
`connection.go` lines 171-186). The Go field `Type` is renamed `type'`
here because `Type` is reserved in Lean; all other fields keep their
names. -/
structure ConnectionConfig where
  type' : String
  IsChecked : Bool
  Host : String
  Port : Int
  User : String
  Password : String
  Database : String
  URL : String
  Method : String
  Timeout : String
  DB : Int
  ProjectID : String
  CredentialsJSON : String
  TopicID : String
deriving DecidableEq

/-- Configuration for an HTTP connection (Go struct `HTTPConfig`).
`Timeout` is a `time.Duration`, i.e. an int64 count of nanoseconds. -/
structure HTTPConfig where
  URL : String
  Method : String
  Timeout : Int
deriving DecidableEq

/-- Configuration for a MySQL connection (Go struct `MySQLConfig`). -/
structure MySQLConfig where
  Host : String
  Port : Int
  User : String
  Password : String
  Database : String
deriving DecidableEq

/-- Configuration for a Redis connection (Go struct `RedisConfig`). -/
structure RedisConfig where
  Host : String
  Port : Int
  Password : String
  DB : Int
deriving DecidableEq

/-- Configuration for a Google Cloud Pub/Sub connection (Go struct
`PubSubConfig`). -/
structure PubSubConfig where
  ProjectID : String
  CredentialsJSON : String
  TopicID : String
deriving DecidableEq

/-- The `Connection` interface of the source, embedded as a sum of the
four structs that implement it. -/
inductive Connection where
  | http (c : HTTPConfig)
  | mysql (c : MySQLConfig)
  | redis (c : RedisConfig)
  | pubsub (c : PubSubConfig)
deriving DecidableEq

/-- Go struct `Resource` (`connection.go` lines 37-41). `Config` is an
interface field, so it is `none` (Go `nil`) until a factory branch
assigns it; invoking a method on a `none` config models a nil-interface
panic. The Go field `Type` is renamed `type'`. -/
structure Resource where
  type' : String
  IsChecked : Bool
  Config : Option Connection
deriving DecidableEq

/-- Go's `time.quote` as it behaves on strings without control or
non-ASCII characters: wrap in double quotes. (The hex-escaping Go applies
to control and non-ASCII runes is elided; no property below depends on
the quoted text's exact shape.) -/
def quoteGo (s : String) : String := "\"" ++ s ++ "\""

/-- The error message `time: invalid duration "<orig>"` of Go's
`time.ParseDuration`. -/
def invalidMsg (orig : String) : String := "time: invalid duration " ++ quoteGo orig

/-- Go `time.leadingInt`: consume leading decimal digits into `x`,
erroring out when the accumulator would pass `1<<63`. The guard
`x > 1<<63/10` keeps every uint64 step below `2^64`, so plain Nat
arithmetic coincides with Go's. -/
def leadingInt : Nat → List Char → Except Unit (Nat × List Char)
  | x, [] => .ok (x, [])
  | x, c :: rest =>
    if c.isDigit then
      if x > 2 ^ 63 / 10 then .error ()
      else
        let y := x * 10 + (c.toNat - '0'.toNat)
        if y > 2 ^ 63 then .error ()
        else leadingInt y rest
    else .ok (x, c :: rest)

/-- Go `time.leadingFraction`: consume digits after the decimal point,
accumulating the value in `x` and the power-of-ten denominator in
`scale`, silently dropping digits once the accumulator would overflow. -/
def leadingFraction : Nat → Nat → Bool → List Char → Nat × Nat × List Char
  | x, scale, _, [] => (x, scale, [])
  | x, scale, overflow, c :: rest =>
    if c.isDigit then
      if overflow then leadingFraction x scale overflow rest
      else if x > (2 ^ 63 - 1) / 10 then leadingFraction x scale true rest
      else
        let y := x * 10 + (c.toNat - '0'.toNat)
        if y > 2 ^ 63 then leadingFraction x scale true rest
        else leadingFraction y (scale * 10) overflow rest
    else (x, scale, c :: rest)

/-- The unit table of Go `time.ParseDuration` (nanoseconds per unit). -/
def unitMapLookup (u : List Char) : Option Nat :=
  if u == "ns".data then some 1
  else if u == "us".data then some 1000
  else if u == "µs".data then some 1000
  else if u == "μs".data then some 1000
  else if u == "ms".data then some 1000000
  else if u == "s".data then some 1000000000
  else if u == "m".data then some 60000000000
  else if u == "h".data then some 3600000000000
  else none

/-- The segment loop of Go `time.ParseDuration`: repeatedly consume one
`[0-9]*(\.[0-9]*)?<unit>` segment, accumulating nanoseconds in `d`
(uint64, hence the `% 2 ^ 64` on the one addition that can wrap). The
fuel argument only bounds the recursion; each iteration consumes at
least one character, so `length + 1` fuel never runs out. -/
def parseLoop (orig : String) : Nat → Nat → List Char → Except String Nat
  | _, d, [] => .ok d
  | 0, _, _ :: _ => .error (invalidMsg orig)
  | fuel + 1, d, c :: rest =>
    if !(c == '.' || c.isDigit) then .error (invalidMsg orig)
    else
      match leadingInt 0 (c :: rest) with
      | .error _ => .error (invalidMsg orig)
      | .ok (v, s1) =>
        let pre := s1.length != (c :: rest).length
        let fr : Nat × Nat × List Char × Bool :=
          match s1 with
          | '.' :: r2 =>
            let lf := leadingFraction 0 1 false r2
            (lf.1, lf.2.1, lf.2.2, lf.2.2.length != r2.length)
          | _ => (0, 1, s1, false)
        let f := fr.1
        let scale := fr.2.1
        let s2 := fr.2.2.1
        let post := fr.2.2.2
        if !pre && !post then .error (invalidMsg orig)
        else
          let u := s2.takeWhile (fun ch => !(ch == '.' || ch.isDigit))
          let s3 := s2.dropWhile (fun ch => !(ch == '.' || ch.isDigit))
          if u.length == 0 then .error ("time: missing unit in duration " ++ quoteGo orig)
          else
            match unitMapLookup u with
            | none =>
              .error ("time: unknown unit " ++ quoteGo (String.mk u) ++
                " in duration " ++ quoteGo orig)
            | some unit =>
              if v > 2 ^ 63 / unit then .error (invalidMsg orig)
              else
                let v1 := v * unit
                let v2 := if f > 0 then v1 + f * unit / scale else v1
                if f > 0 && v2 > 2 ^ 63 then .error (invalidMsg orig)
                else
                  let d1 := (d + v2) % 2 ^ 64
                  if d1 > 2 ^ 63 then .error (invalidMsg orig)
                  else parseLoop orig fuel d1 s3

/-- Go `time.ParseDuration`, returning the duration as an `Int` count of
nanoseconds (int64 semantics: a negative sign flips `d ≤ 2^63`, whose
int64 image is uniformly `-(d : Int)`). -/
def parseDuration (s : String) : Except String Int :=
  let orig := s
  let sign : Bool × List Char :=
    match s.data with
    | c :: rest => if c == '-' || c == '+' then (c == '-', rest) else (false, s.data)
    | [] => (false, s.data)
  let neg := sign.1
  let chars := sign.2
  if chars == ['0'] then .ok 0
  else if chars == [] then .error (invalidMsg orig)
  else
    match parseLoop orig (chars.length + 1) 0 chars with
    | .error e => .error e
    | .ok d =>
      if neg then .ok (-(d : Int))
      else if d > 2 ^ 63 - 1 then .error (invalidMsg orig)
      else .ok (d : Int)

/-- Go `createResource` (`connection.go` lines 224-266): dispatch on the
declared type, building the kind-specific probe from the config's fields;
`http` parses the timeout first and fails on a parse error, an unknown
type fails with `unsupported resource type`. -/
def createResource (_name : String) (config : ConnectionConfig) : Except String Resource :=
  if config.type' = "mysql" then
    .ok ⟨config.type', config.IsChecked,
      some (.mysql ⟨config.Host, config.Port, config.User, config.Password, config.Database⟩)⟩
  else if config.type' = "http" then
    match parseDuration config.Timeout with
    | .error e => .error ("invalid timeout format: " ++ e)
    | .ok timeout =>
      .ok ⟨config.type', config.IsChecked, some (.http ⟨config.URL, config.Method, timeout⟩)⟩
  else if config.type' = "redis" then
    .ok ⟨config.type', config.IsChecked,
      some (.redis ⟨config.Host, config.Port, config.Password, config.DB⟩)⟩
  else if config.type' = "pubsub" then
    .ok ⟨config.type', config.IsChecked,
      some (.pubsub ⟨config.ProjectID, config.CredentialsJSON, config.TopicID⟩)⟩
  else
    .error ("unsupported resource type: " ++ config.type')

example : parseDuration "5s" = .ok 5000000000 := by rfl
example : parseDuration "bogus" = .error "time: invalid duration \"bogus\"" := by rfl
example : parseDuration "1.5h" = .ok 5400000000000 := by rfl
example : parseDuration "-2m" = .ok (-120000000000) := by rfl
example : parseDuration "" = .error "time: invalid duration \"\"" := by rfl
example : parseDuration "3x" = .error "time: unknown unit \"x\" in duration \"3x\"" := by rfl
example : parseDuration "3" = .error "time: missing unit in duration \"3\"" := by rfl

/-- `HTTPConfig.GetDescription` (`connection.go` lines 67-69). -/
def HTTPConfig.GetDescription (c : HTTPConfig) : String :=
  c.Method ++ ":" ++ c.URL

/-- `MySQLConfig.GetDescription` (`connection.go` lines 97-99):
`fmt.Sprintf("mysql://%s@%s:%d/%s", ...)`. -/
def MySQLConfig.GetDescription (c : MySQLConfig) : String :=
  "mysql://" ++ c.User ++ "@" ++ c.Host ++ ":" ++ toString c.Port ++ "/" ++ c.Database

/-- `RedisConfig.GetDescription` (`connection.go` lines 124-126):
`fmt.Sprintf("redis://%s:%d/%d", ...)`. -/
def RedisConfig.GetDescription (c : RedisConfig) : String :=
  "redis://" ++ c.Host ++ ":" ++ toString c.Port ++ "/" ++ toString c.DB

/-- `PubSubConfig.GetDescription` (`connection.go` lines 167-169):
`fmt.Sprintf("pubsub://%s/topics/%s", ...)`. -/
def PubSubConfig.GetDescription (c : PubSubConfig) : String :=
  "pubsub://" ++ c.ProjectID ++ "/topics/" ++ c.TopicID

/-- Dynamic dispatch of the interface method `GetDescription`. -/
def Connection.GetDescription : Connection → String
  | .http c => c.GetDescription
  | .mysql c => c.GetDescription
  | .redis c => c.GetDescription
  | .pubsub c => c.GetDescription

/-- Oracle record standing for the external transports and client
libraries. Each field abstracts one opaque capability exactly at the
argument signature with which the source invokes it:
`httpGet url timeout` is `http.Client{Timeout: timeout}.Get(url)`
returning a status code or a transport error; `sqlOpen dsn` is
`sql.Open("mysql", dsn)`; `dbPing dsn` is `db.Ping()` on the handle
opened for `dsn` (its error, or `none` on success); `redisPing addr
password db` is `redis.NewClient(&redis.Options{...}).Ping(ctx)`;
`psNewClientJSON projectID credsJSON` / `psNewClientDefault projectID`
are the two `pubsub.NewClient` call shapes; `topicExists projectID
topicID` is `client.Topic(topicID).Exists(ctx)`. -/
structure NetEnv where
  httpGet : String → Int → Except String Nat
  sqlOpen : String → Except String Unit
  dbPing : String → Option String
  redisPing : String → String → Int → Option String
  psNewClientJSON : String → String → Except String Unit
  psNewClientDefault : String → Except String Unit
  topicExists : String → String → Except String Bool

/-- `HTTPConfig.CheckConnection` (`connection.go` lines 50-65): one GET
with the configured timeout; transport errors and status codes `>= 400`
are failures, everything below 400 succeeds. The result is `none` on
success and `some message` on failure (Go's `error` return). -/
def HTTPConfig.CheckConnection (env : NetEnv) (c : HTTPConfig) : Option String :=
  match env.httpGet c.URL c.Timeout with
  | .error e => some ("HTTP connection failed: " ++ e)
  | .ok code =>
    if code ≥ 400 then some ("HTTP request failed with status: " ++ toString code)
    else none

/-- The DSN built by `MySQLConfig.CheckConnection` (`connection.go`
lines 81-82): `fmt.Sprintf("%s:%s@tcp(%s:%d)/%s?timeout=5s", ...)`. -/
def mysqlDSN (c : MySQLConfig) : String :=
  c.User ++ ":" ++ c.Password ++ "@tcp(" ++ c.Host ++ ":" ++ toString c.Port ++ ")/" ++
    c.Database ++ "?timeout=5s"

/-- `MySQLConfig.CheckConnection` (`connection.go` lines 80-95): open a
handle for the DSN, then ping it. -/
def MySQLConfig.CheckConnection (env : NetEnv) (c : MySQLConfig) : Option String :=
  match env.sqlOpen (mysqlDSN c) with
  | .error e => some ("failed to connect to MySQL: " ++ e)
  | .ok _ =>
    match env.dbPing (mysqlDSN c) with
    | some e => some ("MySQL ping failed: " ++ e)
    | none => none

/-- The address built by `RedisConfig.CheckConnection` (`connection.go`
line 111): `fmt.Sprintf("%s:%d", c.Host, c.Port)`. -/
def redisAddr (c : RedisConfig) : String :=
  c.Host ++ ":" ++ toString c.Port

/-- `RedisConfig.CheckConnection` (`connection.go` lines 109-122):
build a client from address, password and DB index, then ping it. -/
def RedisConfig.CheckConnection (env : NetEnv) (c : RedisConfig) : Option String :=
  match env.redisPing (redisAddr c) c.Password c.DB with
  | some e => some ("Redis ping failed: " ++ e)
  | none => none

/-- Failure message of the Pub/Sub client-construction mode
(`connection.go` line 150). -/
def pubsubClientErrMsg (e : String) : String :=
  "failed to create Pub/Sub client: " ++ e

/-- Failure message of the Pub/Sub existence-check mode
(`connection.go` line 158). -/
def pubsubExistsErrMsg (e : String) : String :=
  "failed to check topic existence: " ++ e

/-- Failure message of the Pub/Sub topic-not-found mode
(`connection.go` line 161). -/
def pubsubNotFoundMsg (topicID : String) : String :=
  "topic " ++ topicID ++ " does not exist"

/-- The client-construction step of `PubSubConfig.CheckConnection`
(`connection.go` lines 139-148): the explicit-JSON-credentials call when
the credentials field is non-empty, the default-credentials call
otherwise. -/
def pubsubClientRes (env : NetEnv) (c : PubSubConfig) : Except String Unit :=
  if c.CredentialsJSON ≠ "" then env.psNewClientJSON c.ProjectID c.CredentialsJSON
  else env.psNewClientDefault c.ProjectID

/-- `PubSubConfig.CheckConnection` (`connection.go` lines 135-165):
construct a client (with explicit JSON credentials when the field is
non-empty, else the default-credentials call), then check that the topic
exists. -/
def PubSubConfig.CheckConnection (env : NetEnv) (c : PubSubConfig) : Option String :=
  match pubsubClientRes env c with
  | .error e => some (pubsubClientErrMsg e)
  | .ok _ =>
    match env.topicExists c.ProjectID c.TopicID with
    | .error e => some (pubsubExistsErrMsg e)
    | .ok true => none
    | .ok false => some (pubsubNotFoundMsg c.TopicID)

/-- Dynamic dispatch of the interface method `CheckConnection`. -/
def Connection.CheckConnection (env : NetEnv) : Connection → Option String
  | .http c => c.CheckConnection env
  | .mysql c => c.CheckConnection env
  | .redis c => c.CheckConnection env
  | .pubsub c => c.CheckConnection env

/-- Escape sequence applied by `go-pretty`'s `text.FgRed`. -/
def fgRedSeq : String := "\x1b[31m"

/-- Escape sequence applied by `go-pretty`'s `text.FgGreen`. -/
def fgGreenSeq : String := "\x1b[32m"

/-- Escape sequence applied by `go-pretty`'s `text.FgYellow`. -/
def fgYellowSeq : String := "\x1b[33m"

/-- The reset escape sequence `text.EscapeReset` of `go-pretty`. -/
def resetSeq : String := "\x1b[0m"

/-- The `go-pretty` `text` colour layer: `Color.Sprint`/`Sprintf` wrap
their text in the colour's escape sequence exactly when ANSI colours are
enabled (stdout is a terminal supporting them) and return the text
unchanged otherwise. -/
def colorize (enabled : Bool) (escapeSeq : String) (s : String) : String :=
  if enabled then escapeSeq ++ s ++ resetSeq else s

/-- One 4-column row handed to the table writer
(`t.AppendRow(table.Row{name, type, description, status})`). -/
structure Row where
  name : String
  rtype : String
  description : String
  status : String
deriving DecidableEq

/-- The per-descriptor body of the loop in `newConnection`
(`connection.go` lines 286-325). Returns the row appended for this
descriptor (`none` models the Go panic of invoking a method on a nil
`Config` interface, which the factory in fact never produces) together
with the list of probes on which `CheckConnection` was invoked — the
network attempts made for this descriptor. -/
def processOne (colors : Bool) (env : NetEnv) (name : String) (config : ConnectionConfig) :
    Option Row × List Connection :=
  match createResource name config with
  | .error err =>
    (some ⟨name, config.type', "", colorize colors fgRedSeq ("Error: " ++ err)⟩, [])
  | .ok resource =>
    if !resource.IsChecked then
      match resource.Config with
      | none => (none, [])
      | some probe =>
        (some ⟨name, config.type', probe.GetDescription,
          colorize colors fgYellowSeq "Skipped"⟩, [])
    else
      match resource.Config with
      | none => (none, [])
      | some probe =>
        match probe.CheckConnection env with
        | some err =>
          (some ⟨name, config.type', probe.GetDescription,
            colorize colors fgRedSeq ("Failed: " ++ err)⟩, [probe])
        | none =>
          (some ⟨name, config.type', probe.GetDescription,
            colorize colors fgGreenSeq "Connected"⟩, [probe])

/-- The full row-emission loop of `newConnection` over the connections
in iteration order: the rows appended to the table and the probes on
which a connection was attempted. -/
def connectionRun (colors : Bool) (env : NetEnv) :
    List (String × ConnectionConfig) → List Row × List Connection
  | [] => ([], [])
  | (name, config) :: rest =>
    let one := processOne colors env name config
    let more := connectionRun colors env rest
    (one.1.toList ++ more.1, one.2 ++ more.2)

/-- The status-column contract stated by the spec: exactly `Skipped`,
exactly `Connected`, or `Failed: ` / `Error: ` followed by a message. -/
def statusIsLiteral (s : String) : Bool :=
  s == "Skipped" || s == "Connected" ||
    List.isPrefixOf "Failed: ".data s.data || List.isPrefixOf "Error: ".data s.data

/-- Modelled from the spec: the kind-specific `describe()` formats the
specification prescribes verbatim — `"<method>:<url>"` for HTTP,
`"mysql://<user>@<host>:<port>/<database>"` for MySQL,
`"redis://<host>:<port>/<dbIndex>"` for Redis,
`"pubsub://<projectID>/topics/<topicID>"` for PubSub. -/
def specDescription : Connection → String
  | .http c => c.Method ++ ":" ++ c.URL
  | .mysql c => "mysql://" ++ c.User ++ "@" ++ c.Host ++ ":" ++ toString c.Port ++
      "/" ++ c.Database
  | .redis c => "redis://" ++ c.Host ++ ":" ++ toString c.Port ++ "/" ++ toString c.DB
  | .pubsub c => "pubsub://" ++ c.ProjectID ++ "/topics/" ++ c.TopicID

/-- An all-successful oracle, used to instantiate theorems at concrete
inputs. -/
def trivEnv : NetEnv :=
  ⟨fun _ _ => .ok 200, fun _ => .ok (), fun _ => none, fun _ _ _ => none,
   fun _ _ => .ok (), fun _ => .ok (), fun _ _ => .ok true⟩

/-- Helper: a successful factory call copies `type'` and `IsChecked`
verbatim and always assigns a probe. -/
theorem createResource_ok_inv (name : String) (config : ConnectionConfig) (r : Resource)
    (h : createResource name config = .ok r) :
    r.type' = config.type' ∧ r.IsChecked = config.IsChecked ∧ ∃ c, r.Config = some c := by
  unfold createResource at h
  split at h
  · simp only [Except.ok.injEq] at h
    subst h
    exact ⟨rfl, rfl, _, rfl⟩
  · split at h
    · split at h
      · exact absurd h (by simp)
      · simp only [Except.ok.injEq] at h
        subst h
        exact ⟨rfl, rfl, _, rfl⟩
    · split at h
      · simp only [Except.ok.injEq] at h
        subst h
        exact ⟨rfl, rfl, _, rfl⟩
      · split at h
        · simp only [Except.ok.injEq] at h
          subst h
          exact ⟨rfl, rfl, _, rfl⟩
        · exact absurd h (by simp)

/-- Helper: the loop body always appends exactly one row. -/
theorem processOne_fst_isSome (colors : Bool) (env : NetEnv) (name : String)
    (config : ConnectionConfig) : ((processOne colors env name config).1).isSome = true := by
  unfold processOne
  split
  · rfl
  · next r heq =>
    obtain ⟨-, -, c, hc⟩ := createResource_ok_inv name config r heq
    split
    · rw [hc]
      simp
    · rw [hc]
      cases hcc : Connection.CheckConnection env c
      · simp [hcc]
      · simp [hcc]

/-- A config with an unsupported kind, for instantiating theorems. -/
def cfgBadKind : ConnectionConfig :=
  ⟨"nosuch", true, "", 0, "", "", "", "", "", "", 0, "", "", ""⟩

/-- An unchecked MySQL config, for instantiating theorems. -/
def cfgMySQL : ConnectionConfig :=
  ⟨"mysql", false, "h", 3306, "u", "p", "d", "", "", "", 0, "", "", ""⟩

/-- The resource `createResource` builds from `cfgMySQL`. -/
def resMySQL : Resource :=
  ⟨"mysql", false, some (.mysql ⟨"h", 3306, "u", "p", "d"⟩)⟩

/-- C1: every descriptor yields exactly one report row; when the factory
fails the loop body immediately yields an `Error` row carrying the
declared kind, an empty description and the error's reason, and the run
over the remaining descriptors is exactly the run that would have
happened anyway — a construction failure never aborts the run. -/
theorem connectionRun_row_per_descriptor (colors : Bool) (env : NetEnv)
    (descs : List (String × ConnectionConfig)) :
    ((connectionRun colors env descs).1).length = descs.length ∧
    (∀ name config err, createResource name config = .error err →
      processOne colors env name config =
        (some ⟨name, config.type', "", colorize colors fgRedSeq ("Error: " ++ err)⟩, [])) ∧
    (∀ name config rest,
      connectionRun colors env ((name, config) :: rest) =
        (((processOne colors env name config).1).toList ++ (connectionRun colors env rest).1,
          (processOne colors env name config).2 ++ (connectionRun colors env rest).2)) := by
  refine ⟨?_, ?_, ?_⟩
  · induction descs with
    | nil => rfl
    | cons hd tl ih =>
      obtain ⟨name, config⟩ := hd
      have h := processOne_fst_isSome colors env name config
      cases hp : (processOne colors env name config).1 with
      | none => rw [hp] at h; exact absurd h (by simp)
      | some row => simp [connectionRun, hp, ih]
  · intro name config err h
    unfold processOne
    rw [h]
  · intro name config rest
    rfl

/-- Witness for C1 at a concrete unsupported-kind config. -/
theorem connectionRun_row_per_descriptor_witness :
    processOne false trivEnv "bad" cfgBadKind =
      (some ⟨"bad", "nosuch", "", "Error: unsupported resource type: nosuch"⟩, []) := by
  have h := (connectionRun_row_per_descriptor false trivEnv []).2.1 "bad" cfgBadKind
    "unsupported resource type: nosuch" (by rfl)
  simpa using h

/-- C2: when materialization succeeds and the checked flag is false, the
loop body emits a `Skipped` row whose description is the probe's
`GetDescription`, and the list of probes on which `CheckConnection` was
invoked is empty — no network call is made, for any transport oracle. -/
theorem processOne_skipped_no_attempt (colors : Bool) (env : NetEnv) (name : String)
    (config : ConnectionConfig) (r : Resource) (probe : Connection)
    (hok : createResource name config = .ok r) (hprobe : r.Config = some probe)
    (hskip : r.IsChecked = false) :
    processOne colors env name config =
      (some ⟨name, config.type', probe.GetDescription, colorize colors fgYellowSeq "Skipped"⟩,
        []) := by
  unfold processOne
  rw [hok]
  simp [hskip, hprobe]

/-- Witness for C2 at a concrete unchecked MySQL config. -/
theorem processOne_skipped_no_attempt_witness :
    processOne false trivEnv "db" cfgMySQL =
      (some ⟨"db", "mysql", "mysql://u@h:3306/d", "Skipped"⟩, []) := by
  have h := processOne_skipped_no_attempt false trivEnv "db" cfgMySQL resMySQL
    (.mysql ⟨"h", 3306, "u", "p", "d"⟩) (by rfl) (by rfl) (by rfl)
  simpa using h

/-- C9: whenever the factory returns without error, the resource carries
a probe (its `Config` is not Go `nil`) and its `type'` and `IsChecked`
equal the descriptor's fields verbatim; consequently the loop body never
hits the nil-dereference outcome — it yields a row for every descriptor
and every oracle. -/
theorem createResource_ok_safe (name : String) (config : ConnectionConfig) :
    (∀ r, createResource name config = .ok r →
      r.Config.isSome = true ∧ r.type' = config.type' ∧ r.IsChecked = config.IsChecked) ∧
    (∀ colors env, ((processOne colors env name config).1).isSome = true) := by
  constructor
  · intro r h
    obtain ⟨h1, h2, c, hc⟩ := createResource_ok_inv name config r h
    exact ⟨by simp [hc], h1, h2⟩
  · intro colors env
    exact processOne_fst_isSome colors env name config

/-- Witness for C9 at a concrete MySQL config. -/
theorem createResource_ok_safe_witness :
    (resMySQL.Config.isSome = true ∧ resMySQL.type' = cfgMySQL.type' ∧
      resMySQL.IsChecked = cfgMySQL.IsChecked) ∧
    ((processOne false trivEnv "db" cfgMySQL).1).isSome = true :=
  ⟨(createResource_ok_safe "db" cfgMySQL).1 resMySQL (by rfl),
   (createResource_ok_safe "db" cfgMySQL).2 false trivEnv⟩

/-- Helper: an `Error: `-prefixed status satisfies the literal contract. -/
theorem statusIsLiteral_error (msg : String) : statusIsLiteral ("Error: " ++ msg) = true := by
  simp [statusIsLiteral]

/-- Helper: a `Failed: `-prefixed status satisfies the literal contract. -/
theorem statusIsLiteral_failed (msg : String) : statusIsLiteral ("Failed: " ++ msg) = true := by
  simp [statusIsLiteral]

/-- Helper: every row the loop body emits carries one of the four
literal statuses, wrapped by the colour layer. -/
theorem processOne_status_shape (colors : Bool) (env : NetEnv) (name : String)
    (config : ConnectionConfig) (row : Row)
    (h : (processOne colors env name config).1 = some row) :
    ∃ esc core, statusIsLiteral core = true ∧ row.status = colorize colors esc core := by
  unfold processOne at h
  split at h
  · next err heq =>
    simp at h
    subst h
    exact ⟨fgRedSeq, "Error: " ++ err, statusIsLiteral_error err, rfl⟩
  · next r heq =>
    split at h
    · split at h
      · exact absurd h (by simp)
      · simp at h
        subst h
        exact ⟨fgYellowSeq, "Skipped", by simp [statusIsLiteral], rfl⟩
    · split at h
      · exact absurd h (by simp)
      · next probe hprobe =>
        split at h
        · next err hcc =>
          simp at h
          subst h
          exact ⟨fgRedSeq, "Failed: " ++ err, statusIsLiteral_failed err, rfl⟩
        · simp at h
          subst h
          exact ⟨fgGreenSeq, "Connected", by simp [statusIsLiteral], rfl⟩

/-- C3 counterexample: with ANSI colours enabled (stdout a colour
terminal), the status handed to the table writer is the literal wrapped
in colour escape codes, so it is not exactly one of the four literals. -/
theorem status_colorized_not_literal :
    ((connectionRun true trivEnv [("bad", cfgBadKind)]).1).all
      (fun row => statusIsLiteral row.status) = false := by rfl

/-- C3 (amended): every status handed to the table writer is one of the
four literal statuses — exactly `Skipped`, exactly `Connected`, or
`Failed: `/`Error: ` followed by the message — wrapped by the colour
layer: with ANSI colours disabled it is exactly the literal, with
colours enabled it is the literal inside one escape/reset pair. -/
theorem connectionRun_status_shape (colors : Bool) (env : NetEnv)
    (descs : List (String × ConnectionConfig)) :
    ∀ row ∈ (connectionRun colors env descs).1,
      ∃ esc core, statusIsLiteral core = true ∧ row.status = colorize colors esc core := by
  induction descs with
  | nil =>
    intro row hrow
    exact absurd hrow (by simp [connectionRun])
  | cons hd tl ih =>
    obtain ⟨name, config⟩ := hd
    intro row hrow
    simp only [connectionRun, List.mem_append] at hrow
    rcases hrow with h1 | h2
    · cases hp : (processOne colors env name config).1 with
      | none => rw [hp] at h1; exact absurd h1 (by simp)
      | some r0 =>
        rw [hp] at h1
        simp at h1
        subst h1
        exact processOne_status_shape colors env name config row hp
    · exact ih row h2

/-- Witness for the amended C3 at a concrete run. -/
theorem connectionRun_status_shape_witness :
    ∃ esc core, statusIsLiteral core = true ∧
      (Row.mk "db" "mysql" "mysql://u@h:3306/d" "Skipped").status = colorize false esc core := by
  apply connectionRun_status_shape false trivEnv [("db", cfgMySQL)]
  decide

/-- C4: for an `http` descriptor, materialization fails exactly when the
timeout string does not parse as a Go duration; the failure message is
`invalid timeout format: ` followed by the parse error's text, a
successful construction carries `URL` and `Method` verbatim (and no
other validation), and for a descriptor whose construction failed the
loop body invokes `CheckConnection` on nothing at all. -/
theorem createResource_http_timeout_iff (name : String) (config : ConnectionConfig)
    (htype : config.type' = "http") :
    (∀ d, parseDuration config.Timeout = .ok d →
      createResource name config =
        .ok ⟨config.type', config.IsChecked, some (.http ⟨config.URL, config.Method, d⟩)⟩) ∧
    (∀ e, parseDuration config.Timeout = .error e →
      createResource name config = .error ("invalid timeout format: " ++ e)) ∧
    ((∃ e, createResource name config = .error e) ↔
      ∃ e, parseDuration config.Timeout = .error e) ∧
    (∀ colors env e, createResource name config = .error e →
      (processOne colors env name config).2 = []) := by
  refine ⟨?_, ?_, ?_, ?_⟩
  · intro d hd
    simp [createResource, htype, hd]
  · intro e he
    simp [createResource, htype, he]
  · cases hpd : parseDuration config.Timeout with
    | error e =>
      constructor
      · intro _
        exact ⟨e, rfl⟩
      · intro _
        exact ⟨"invalid timeout format: " ++ e, by simp [createResource, htype, hpd]⟩
    | ok d =>
      constructor
      · rintro ⟨e, he⟩
        rw [show createResource name config =
            .ok ⟨config.type', config.IsChecked, some (.http ⟨config.URL, config.Method, d⟩)⟩
          from by simp [createResource, htype, hpd]] at he
        exact absurd he (by simp)
      · rintro ⟨e, he⟩
        exact absurd he (by simp)
  · intro colors env e he
    unfold processOne
    rw [he]

/-- An http config with an unparseable timeout, for instantiating
theorems. -/
def cfgHTTPBogus : ConnectionConfig :=
  ⟨"http", true, "", 0, "", "", "", "http://svc", "GET", "bogus", 0, "", "", ""⟩

/-- An http config with a parseable timeout, for instantiating
theorems. -/
def cfgHTTPGood : ConnectionConfig :=
  ⟨"http", true, "", 0, "", "", "", "http://svc", "GET", "5s", 0, "", "", ""⟩

/-- Witness for C4: `"5s"` parses and the probe copies url/method,
`"bogus"` fails with the invalid-timeout message and causes no attempt. -/
theorem createResource_http_timeout_iff_witness :
    createResource "web" cfgHTTPGood =
      .ok ⟨cfgHTTPGood.type', cfgHTTPGood.IsChecked,
        some (.http ⟨cfgHTTPGood.URL, cfgHTTPGood.Method, 5000000000⟩)⟩ ∧
    createResource "web" cfgHTTPBogus =
      .error ("invalid timeout format: " ++ "time: invalid duration \"bogus\"") ∧
    (processOne false trivEnv "web" cfgHTTPBogus).2 = [] :=
  ⟨(createResource_http_timeout_iff "web" cfgHTTPGood (by rfl)).1 5000000000 (by rfl),
   (createResource_http_timeout_iff "web" cfgHTTPBogus (by rfl)).2.1
     "time: invalid duration \"bogus\"" (by rfl),
   (createResource_http_timeout_iff "web" cfgHTTPBogus (by rfl)).2.2.2 false trivEnv
     ("invalid timeout format: " ++ "time: invalid duration \"bogus\"") (by rfl)⟩

/-- C5: the HTTP probe consults the transport exactly at the configured
url and timeout (its outcome depends on the oracle only through that one
GET), succeeds exactly when the request returns a status code strictly
below 400, and maps a transport error or a status `>= 400` to a failure
carrying the corresponding message. -/
theorem httpCheckConnection_classification (env : NetEnv) (c : HTTPConfig) :
    (HTTPConfig.CheckConnection env c = none ↔
      ∃ code, env.httpGet c.URL c.Timeout = .ok code ∧ code < 400) ∧
    (∀ e, env.httpGet c.URL c.Timeout = .error e →
      HTTPConfig.CheckConnection env c = some ("HTTP connection failed: " ++ e)) ∧
    (∀ code, env.httpGet c.URL c.Timeout = .ok code → 400 ≤ code →
      HTTPConfig.CheckConnection env c =
        some ("HTTP request failed with status: " ++ toString code)) ∧
    (∀ env' : NetEnv, env'.httpGet c.URL c.Timeout = env.httpGet c.URL c.Timeout →
      HTTPConfig.CheckConnection env' c = HTTPConfig.CheckConnection env c) := by
  refine ⟨?_, ?_, ?_, ?_⟩
  · unfold HTTPConfig.CheckConnection
    cases hg : env.httpGet c.URL c.Timeout with
    | error e => simp
    | ok code =>
      by_cases h4 : code ≥ 400
      · simp [h4]
      · simp [h4]
        omega
  · intro e he
    unfold HTTPConfig.CheckConnection
    rw [he]
  · intro code hc h4
    unfold HTTPConfig.CheckConnection
    rw [hc]
    simp [h4]
  · intro env' he
    unfold HTTPConfig.CheckConnection
    rw [he]

/-- Witness for C5: a 200 response is a success. -/
theorem httpCheckConnection_classification_witness :
    HTTPConfig.CheckConnection trivEnv ⟨"http://svc", "GET", 1000000000⟩ = none :=
  ((httpCheckConnection_classification trivEnv ⟨"http://svc", "GET", 1000000000⟩).1).mpr
    ⟨200, rfl, by omega⟩

/-- C6: `GetDescription` is a pure function of the probe's fields —
repeated calls agree definitionally and there is no oracle argument to
perform I/O through — and on every variant it produces exactly the
kind-specific format the specification prescribes (`specDescription`). -/
theorem getDescription_deterministic_format (c : Connection) :
    Connection.GetDescription c = Connection.GetDescription c ∧
    Connection.GetDescription c = specDescription c := by
  refine ⟨rfl, ?_⟩
  cases c <;> rfl

/-- Helper: appending to fixed left parts that differ at a common
position yields distinct strings, whatever is appended. -/
theorem append_ne_append_of_getElem (a b e₁ e₂ : String) (i : Nat)
    (ha : i < a.data.length) (hb : i < b.data.length)
    (hne : a.data[i]? ≠ b.data[i]?) : a ++ e₁ ≠ b ++ e₂ := by
  intro heq
  apply hne
  have hd : a.data ++ e₁.data = b.data ++ e₂.data := by
    rw [← String.data_append, ← String.data_append, heq]
  calc a.data[i]? = (a.data ++ e₁.data)[i]? := (List.getElem?_append_left ha).symm
    _ = (b.data ++ e₂.data)[i]? := by rw [hd]
    _ = b.data[i]? := List.getElem?_append_left hb

/-- C7: the Pub/Sub probe constructs its client through the explicit
JSON-credentials call exactly when the credentials field is non-empty and
through the default-credentials call when it is empty; the three failure
modes — client construction failure, existence-check failure, and an
affirmative `exists = false` — each produce their own failure message,
the three messages are pairwise distinct whatever the underlying error
texts, and the probe succeeds exactly when the client is built and the
named topic exists. -/
theorem pubsubCheckConnection_modes (env : NetEnv) (c : PubSubConfig) :
    (c.CredentialsJSON ≠ "" →
      pubsubClientRes env c = env.psNewClientJSON c.ProjectID c.CredentialsJSON) ∧
    (c.CredentialsJSON = "" →
      pubsubClientRes env c = env.psNewClientDefault c.ProjectID) ∧
    (∀ e, pubsubClientRes env c = .error e →
      PubSubConfig.CheckConnection env c = some (pubsubClientErrMsg e)) ∧
    (∀ e, pubsubClientRes env c = .ok () →
      env.topicExists c.ProjectID c.TopicID = .error e →
      PubSubConfig.CheckConnection env c = some (pubsubExistsErrMsg e)) ∧
    (pubsubClientRes env c = .ok () →
      env.topicExists c.ProjectID c.TopicID = .ok false →
      PubSubConfig.CheckConnection env c = some (pubsubNotFoundMsg c.TopicID)) ∧
    (PubSubConfig.CheckConnection env c = none ↔
      pubsubClientRes env c = .ok () ∧
        env.topicExists c.ProjectID c.TopicID = .ok true) ∧
    (∀ e₁ e₂, pubsubClientErrMsg e₁ ≠ pubsubExistsErrMsg e₂) ∧
    (∀ e t, pubsubClientErrMsg e ≠ pubsubNotFoundMsg t) ∧
    (∀ e t, pubsubExistsErrMsg e ≠ pubsubNotFoundMsg t) := by
  have h6 : ("topic ").data.length = 6 := by decide
  refine ⟨?_, ?_, ?_, ?_, ?_, ?_, ?_, ?_, ?_⟩
  · intro h
    unfold pubsubClientRes
    simp [h]
  · intro h
    unfold pubsubClientRes
    simp [h]
  · intro e he
    unfold PubSubConfig.CheckConnection
    rw [he]
  · intro e hok hte
    unfold PubSubConfig.CheckConnection
    rw [hok, hte]
  · intro hok hte
    unfold PubSubConfig.CheckConnection
    rw [hok, hte]
  · unfold PubSubConfig.CheckConnection
    cases hcr : pubsubClientRes env c with
    | error e => simp
    | ok u =>
      cases u
      cases hte : env.topicExists c.ProjectID c.TopicID with
      | error e => simp
      | ok b => cases b <;> simp
  · intro e₁ e₂
    unfold pubsubClientErrMsg pubsubExistsErrMsg
    exact append_ne_append_of_getElem _ _ _ _ 11 (by decide) (by decide) (by decide)
  · intro e t
    unfold pubsubClientErrMsg pubsubNotFoundMsg
    have hget : (("topic " ++ t).data)[0]? = some 't' := by
      rw [String.data_append]
      rw [List.getElem?_append_left (by rw [h6]; omega)]
      decide
    refine append_ne_append_of_getElem _ _ e " does not exist" 0 (by decide) ?_ ?_
    · rw [String.data_append, List.length_append, h6]
      omega
    · rw [hget]
      decide
  · intro e t
    unfold pubsubExistsErrMsg pubsubNotFoundMsg
    have hget : (("topic " ++ t).data)[0]? = some 't' := by
      rw [String.data_append]
      rw [List.getElem?_append_left (by rw [h6]; omega)]
      decide
    refine append_ne_append_of_getElem _ _ e " does not exist" 0 (by decide) ?_ ?_
    · rw [String.data_append, List.length_append, h6]
      omega
    · rw [hget]
      decide

/-- Witness for C7: with an all-successful oracle and empty credentials
the probe succeeds. -/
theorem pubsubCheckConnection_modes_witness :
    PubSubConfig.CheckConnection trivEnv ⟨"proj", "", "topic1"⟩ = none :=
  ((pubsubCheckConnection_modes trivEnv ⟨"proj", "", "topic1"⟩).2.2.2.2.2.1).mpr ⟨rfl, rfl⟩

/-- A mysql config carrying junk in every irrelevant field, for
instantiating theorems. -/
def cfgMySQLJunk : ConnectionConfig :=
  ⟨"mysql", true, "h", 1, "u", "p", "d", "http://x", "GET", "1s", 7, "pr", "cj", "tp"⟩

/-- A mysql config agreeing with `cfgMySQLJunk` on the mysql-relevant
fields and empty elsewhere, for instantiating theorems. -/
def cfgMySQLBare : ConnectionConfig :=
  ⟨"mysql", true, "h", 1, "u", "p", "d", "", "", "", 0, "", "", ""⟩

/-- C8: for `mysql` and `redis` descriptors materialization always
succeeds and copies exactly that kind's relevant fields verbatim; two
descriptors of the same kind that agree on the relevant fields
materialize into identical probes no matter what the other fields hold
— irrelevant fields are ignored, not validated. -/
theorem createResource_mysql_redis_total (name₁ name₂ : String)
    (c₁ c₂ : ConnectionConfig) :
    (c₁.type' = "mysql" →
      createResource name₁ c₁ =
        .ok ⟨c₁.type', c₁.IsChecked,
          some (.mysql ⟨c₁.Host, c₁.Port, c₁.User, c₁.Password, c₁.Database⟩)⟩) ∧
    (c₁.type' = "redis" →
      createResource name₁ c₁ =
        .ok ⟨c₁.type', c₁.IsChecked,
          some (.redis ⟨c₁.Host, c₁.Port, c₁.Password, c₁.DB⟩)⟩) ∧
    (c₁.type' = "mysql" → c₂.type' = "mysql" → c₁.Host = c₂.Host → c₁.Port = c₂.Port →
      c₁.User = c₂.User → c₁.Password = c₂.Password → c₁.Database = c₂.Database →
      (createResource name₁ c₁).map Resource.Config =
        (createResource name₂ c₂).map Resource.Config) ∧
    (c₁.type' = "redis" → c₂.type' = "redis" → c₁.Host = c₂.Host → c₁.Port = c₂.Port →
      c₁.Password = c₂.Password → c₁.DB = c₂.DB →
      (createResource name₁ c₁).map Resource.Config =
        (createResource name₂ c₂).map Resource.Config) := by
  refine ⟨?_, ?_, ?_, ?_⟩
  · intro h
    simp [createResource, h]
  · intro h
    simp [createResource, h]
  · intro h1 h2 hh hp hu hpw hdb
    rw [show createResource name₁ c₁ =
        .ok ⟨c₁.type', c₁.IsChecked,
          some (.mysql ⟨c₁.Host, c₁.Port, c₁.User, c₁.Password, c₁.Database⟩)⟩
      from by simp [createResource, h1]]
    rw [show createResource name₂ c₂ =
        .ok ⟨c₂.type', c₂.IsChecked,
          some (.mysql ⟨c₂.Host, c₂.Port, c₂.User, c₂.Password, c₂.Database⟩)⟩
      from by simp [createResource, h2]]
    simp [Except.map, hh, hp, hu, hpw, hdb]
  · intro h1 h2 hh hp hpw hdbi
    rw [show createResource name₁ c₁ =
        .ok ⟨c₁.type', c₁.IsChecked,
          some (.redis ⟨c₁.Host, c₁.Port, c₁.Password, c₁.DB⟩)⟩
      from by simp [createResource, h1]]
    rw [show createResource name₂ c₂ =
        .ok ⟨c₂.type', c₂.IsChecked,
          some (.redis ⟨c₂.Host, c₂.Port, c₂.Password, c₂.DB⟩)⟩
      from by simp [createResource, h2]]
    simp [Except.map, hh, hp, hpw, hdbi]

/-- Witness for C8: junk in the http/pubsub fields of a mysql descriptor
does not change the probe. -/
theorem createResource_mysql_redis_total_witness :
    (createResource "a" cfgMySQLJunk).map Resource.Config =
      (createResource "b" cfgMySQLBare).map Resource.Config :=
  (createResource_mysql_redis_total "a" "b" cfgMySQLJunk cfgMySQLBare).2.2.1
    rfl rfl rfl rfl rfl rfl rfl

/-- A mysql probe with password `pa`, for the password theorems. -/
def mysqlProbeA : MySQLConfig := ⟨"h", 1, "u", "pa", "d"⟩

/-- `mysqlProbeA` with password `pb` instead. -/
def mysqlProbeB : MySQLConfig := ⟨"h", 1, "u", "pb", "d"⟩

/-- A redis probe with password `pa`, for the password theorems. -/
def redisProbeA : RedisConfig := ⟨"h", 1, "pa", 0⟩

/-- `redisProbeA` with password `pb` instead. -/
def redisProbeB : RedisConfig := ⟨"h", 1, "pb", 0⟩

/-- An oracle that accepts exactly the password `pa`: it pings
successfully on `mysqlProbeA`'s DSN and on the redis password `pa`, and
rejects everything else. -/
def pwProbeEnv : NetEnv :=
  ⟨fun _ _ => .ok 200, fun _ => .ok (),
   fun dsn => if dsn == mysqlDSN mysqlProbeA then none else some "access denied",
   fun _ pw _ => if pw == "pa" then none else some "NOAUTH",
   fun _ _ => .ok (), fun _ => .ok (), fun _ _ => .ok true⟩

/-- C10: the MySQL and Redis descriptions are independent of the
password — probes agreeing on every field the description mentions have
equal descriptions whatever their passwords — while the connection
attempt does read the password: one concrete oracle distinguishes two
probes that differ only in it. -/
theorem description_password_independent (c₁ c₂ : MySQLConfig) (r₁ r₂ : RedisConfig) :
    (c₁.Host = c₂.Host → c₁.Port = c₂.Port → c₁.User = c₂.User →
      c₁.Database = c₂.Database → c₁.GetDescription = c₂.GetDescription) ∧
    (r₁.Host = r₂.Host → r₁.Port = r₂.Port → r₁.DB = r₂.DB →
      r₁.GetDescription = r₂.GetDescription) ∧
    MySQLConfig.CheckConnection pwProbeEnv mysqlProbeA ≠
      MySQLConfig.CheckConnection pwProbeEnv mysqlProbeB ∧
    RedisConfig.CheckConnection pwProbeEnv redisProbeA ≠
      RedisConfig.CheckConnection pwProbeEnv redisProbeB := by
  refine ⟨?_, ?_, ?_, ?_⟩
  · intro hh hp hu hdb
    unfold MySQLConfig.GetDescription
    rw [hh, hp, hu, hdb]
  · intro hh hp hdbi
    unfold RedisConfig.GetDescription
    rw [hh, hp, hdbi]
  · decide
  · decide

/-- Witness for C10: the two mysql probes and the two redis probes that
differ only in their passwords have identical descriptions. -/
theorem description_password_independent_witness :
    mysqlProbeA.GetDescription = mysqlProbeB.GetDescription ∧
    redisProbeA.GetDescription = redisProbeB.GetDescription :=
  ⟨(description_password_independent mysqlProbeA mysqlProbeB redisProbeA redisProbeB).1
      rfl rfl rfl rfl,
   (description_password_independent mysqlProbeA mysqlProbeB redisProbeA redisProbeB).2.1
      rfl rfl rfl⟩
